import Mathlib

/-!
Shallow embedding of the cube-builder maestro pipeline
(cube_builder_aws/maestro.py) and of the landsat scene-id helper
(cube_builder_aws/utils/scene_parser.py), together with theorems that
check the natural-language specification of the repository against the
code.  Machine floats in the source are modelled with rationals, numpy
rasters per pixel, and the DynamoDB counter with natural numbers.
-/

namespace CubeBuilder

/-- Work-item status values stored in the activity table
(maestro.py writes the literals NOTDONE, DONE and ERROR). -/
inductive Status
  | NOTDONE
  | DONE
  | ERROR
  deriving DecidableEq

/-- The four pipeline actions of maestro.py. -/
inductive Action
  | merge
  | blend
  | posblend
  | publish
  deriving DecidableEq

/-- maestro.py line 167: after the atomic counter increment, next_step
emits the child stage when the observed count is greater than or equal
to the expected total (the code tests mycount >= totalInstancesToBeDone,
not equality).  mycount is the value returned by the increment. -/
def next_step_fires (mycount totalInstancesToBeDone : Nat) : Bool :=
  decide (totalInstancesToBeDone ≤ mycount)

/-- maestro.py lines 168-178: which child-stage emitter next_step invokes
once the counter condition holds.  A blend stage hands over to posblend
when the activity carries a non-empty bands_expressions mapping and to
publish otherwise; a publish activity has no child branch. -/
def next_step_child (a : Action) (hasBandsExpressions : Bool) : Option Action :=
  match a with
  | .merge => some .blend
  | .blend => some (if hasBandsExpressions then .posblend else .publish)
  | .posblend => some .publish
  | .publish => none

/-- Number of DONE entries in a list of activity statuses.  In the
intended one-increment-per-completed-activity regime this is the value
of the stage counter mycount. -/
def countDone (statuses : List Status) : Nat :=
  statuses.countP (fun s => s == Status.DONE)

/-- maestro.py lines 648-664 (fill_blend): the merge records of every
date are fetched; the function bails out (returns False) when a date has
no merge items or when any fetched merge item is not DONE, so blend
activities are only emitted over an all-DONE merge set. -/
def fill_blend_merges_ok (responses : List (List Status)) : Bool :=
  responses.all (fun r => decide (r.length ≠ 0)) &&
    responses.flatten.all (fun s => s == Status.DONE)

/-- maestro.py line 19 imports the name func from geoalchemy2; inside
fill_blend (line 682) the guard is the Python expression func == 'IDT',
which compares that imported module-level object with a string and is
therefore always False (the loop variable is named function and is never
consulted by the guard). -/
def geoalchemy_func_eq_IDT : Bool := false

/-- maestro.py lines 680-691 (fill_blend): the composite functions for
which an output key named func ++ "file" is defined.  The quality band
produces only STK; for other bands the loop over the cube functions
skips an iteration only when geoalchemy_func_eq_IDT holds. -/
def fill_blend_output_funcs (functions : List String) (isQualityBand : Bool) :
    List String :=
  if isQualityBand then ["STK"]
  else functions.filter (fun _ => !geoalchemy_func_eq_IDT)

/-- Modelled from the spec (section 4.5): output keys are defined for
every func in functions except IDT; the quality band only generates STK.
Kept separate from fill_blend_output_funcs, which is translated from the
code, so the two can be compared. -/
def fill_blend_output_funcs_spec (functions : List String) (isQualityBand : Bool) :
    List String :=
  if isQualityBand then ["STK"]
  else functions.filter (fun f => decide (f ≠ "IDT"))

/-- Split a character list at underscores, mirroring the Python
expression datacube.split for the underscore separator. -/
def splitUnd : List Char → List (List Char)
  | [] => [[]]
  | c :: t =>
    match splitUnd t, decide (c = '_') with
    | r, true => [] :: r
    | [], false => [[c]]
    | h :: r, false => (c :: h) :: r

/-- Join character lists with underscores, mirroring the Python
join over the underscore separator. -/
def joinUnd : List (List Char) → List Char
  | [] => []
  | [x] => x
  | x :: y :: t => x ++ '_' :: joinUnd (y :: t)

/-- maestro.py lines 683 and 688: the cube root obtained by dropping the
last underscore-separated component of the datacube name. -/
def cube_root (datacube : String) : String :=
  String.mk (joinUnd (splitUnd datacube.data).dropLast)

/-- maestro.py lines 683-690: the blend output object key for one
composite function, built from the format string
0/5/1/2_3/0_5_1_2_3_4.tif applied to
(cube_id, tileid, start, end, band, version) with
cube_id = cube_root(datacube) ++ underscore ++ function. -/
def fill_blend_file (datacube version tileid startD endD band function : String) :
    String :=
  let cube_id := cube_root datacube ++ "_" ++ function
  cube_id ++ "/" ++ version ++ "/" ++ tileid ++ "/" ++ startD ++ "_" ++ endD ++ "/" ++
    cube_id ++ "_" ++ version ++ "_" ++ tileid ++ "_" ++ startD ++ "_" ++ endD ++
    "_" ++ band ++ ".tif"

/-- Python substring membership (the expression pat in s). -/
def substrB (pat s : String) : Bool :=
  s.data.tails.any (fun t => pat.data.isPrefixOf t)

/-- maestro.py lines 413-414: the test selecting fmask-style handling of
the quality band: the satellite contains LANDSAT or equals SENTINEL-2,
the band is the quality band, and the mask nodata is nonzero. -/
def is_sentinel_landsat_quality_fmask (satellite : String) (isQualityBand : Bool)
    (maskNodata : Int) : Bool :=
  (substrB "LANDSAT" satellite || satellite == "SENTINEL-2") &&
    (isQualityBand && decide (maskNodata ≠ 0))

/-- maestro.py line 485: the per-scene composition takes the direct-write
branch for bands other than the quality band and for fmask-style quality
bands; every other quality band takes the masked-accumulation branch. -/
def merge_uses_direct_path (satellite : String) (isQualityBand : Bool)
    (maskNodata : Int) : Bool :=
  !isQualityBand || is_sentinel_landsat_quality_fmask satellite isQualityBand maskNodata

/-- maestro.py lines 486-487, one pixel: on the direct-write branch a
scene value overwrites the accumulator exactly when it differs from
nodata; the scenes are folded in link order over the initial fill. -/
def merge_path_direct (nodata init : Int) (scenes : List Int) : Int :=
  scenes.foldl (fun acc v => if v ≠ nodata then v else acc) init

/-- maestro.py lines 490-494, one pixel: on the masked-accumulation
branch the state is (raster_merge, raster_mask); each scene adds
raster * raster_mask to raster_merge and then zeroes raster_mask where
the scene value differs from nodata.  raster_merge starts at the quality
fill value (the mask nodata, line 425) and raster_mask at 1 (line 426). -/
def merge_path_masked (nodata init : Int) (scenes : List Int) : Int × Int :=
  scenes.foldl
    (fun acc v => (acc.1 + v * acc.2, if v ≠ nodata then 0 else acc.2))
    (init, 1)

/-- Python round half to even (the built-in round), on rationals. -/
def pyRound (q : Rat) : Int :=
  let f := ⌊q⌋
  let r := q - f
  if r < 1 / 2 then f
  else if 1 / 2 < r then f + 1
  else if f % 2 = 0 then f else f + 1

/-- maestro.py lines 396-408: with a shape the pixel counts come from the
shape and the local names new_res_x and new_res_y are never assigned;
without a shape they are dist / round(dist / res). -/
def merge_new_res (shape : Option (Nat × Nat)) (dist_x dist_y resx resy : Rat) :
    Option (Rat × Rat) :=
  match shape with
  | some _ => none
  | none =>
    some (dist_x / (pyRound (dist_x / resx) : Rat),
          dist_y / (pyRound (dist_y / resy) : Rat))

/-- Outcome of the activity update at the end of the non-cached path of
merge_warped. -/
structure MergeOutcome where
  mystatus : String
  errorStep : Option String
  new_resolution_x : Option Rat
  new_resolution_y : Option Rat
  deriving DecidableEq

/-- maestro.py lines 523-541: after the COG is written, the activity
update reads new_res_x and new_res_y (lines 527-528).  When a shape was
given these local names were never assigned, Python raises
UnboundLocalError, and the handler at line 531 records mystatus ERROR
with step merge; otherwise the activity is updated DONE carrying the new
resolutions. -/
def merge_warped_finalize (shape : Option (Nat × Nat))
    (dist_x dist_y resx resy : Rat) : MergeOutcome :=
  match merge_new_res shape dist_x dist_y resx resy with
  | none =>
      { mystatus := "ERROR", errorStep := some "merge",
        new_resolution_x := none, new_resolution_y := none }
  | some (rx, ry) =>
      { mystatus := "DONE", errorStep := none,
        new_resolution_x := some rx, new_resolution_y := some ry }

/-- Mask descriptor of the quality band (the activity mask of
maestro.py). -/
structure MaskCfg where
  nodata : Int
  clear_data : List Int
  not_clear_data : List Int
  saturated_data : List Int
  deriving DecidableEq

/-- One scene at one pixel inside the blend loop: the band value, the
raw quality-mask value, and the day of year of the scene date. -/
structure BlendScene where
  v : Int
  m : Int
  doy : Int
  deriving DecidableEq

/-- maestro.py lines 839-845: reclassification of one quality-mask
pixel.  Values in not_clear_data and then saturated_data are zeroed, the
pixel is zeroed when the band value equals nodata, and values in
clear_data become 1. -/
def reclass (cfg : MaskCfg) (rawm v : Int) : Int :=
  let m1 := if rawm ∈ cfg.not_clear_data then 0 else rawm
  let m2 := if m1 ∈ cfg.saturated_data then 0 else m1
  let m3 := if v = cfg.nodata then 0 else m2
  if m3 ∈ cfg.clear_data then 1 else m3

/-- The pixel counts as clear when the reclassified mask value is
nonzero (mask.astype at maestro.py line 849 and the uses at lines 892
and 895). -/
def clearB (cfg : MaskCfg) (rawm v : Int) : Bool :=
  decide (reclass cfg rawm v ≠ 0)

/-- Per-pixel state of the blend loop: the STK raster value, the
provenance value and the notdonemask bit. -/
structure BlendPx where
  stack : Int
  prov : Int
  notdone : Bool
  deriving DecidableEq

/-- maestro.py lines 862-907 specialized to one pixel and one scene (in
efficacy-descending order): gap-fill where the stack still holds nodata
and the scene has data (lines 866-886), overwrite where the pixel is not
yet done and the scene is clear (lines 892-899), the provenance raster
taking the day of year at every pixel just written (lines 888-889 and
901-904), and notdonemask persisting only where the scene was not clear
(line 907). -/
def blend_step (cfg : MaskCfg) (st : BlendPx) (s : BlendScene) : BlendPx :=
  let clear := clearB cfg s.m s.v
  let st1 :=
    if st.stack = cfg.nodata ∧ s.v ≠ cfg.nodata then
      { st with stack := s.v, prov := s.doy }
    else st
  let st2 :=
    if st.notdone && clear then
      { st1 with stack := s.v, prov := s.doy }
    else st1
  { st2 with notdone := st2.notdone && !clear }

/-- maestro.py lines 795, 816 and 822: the initial per-pixel state (the
stack filled with the applicable nodata, provenance -1, notdonemask
true) folded through the ordered scenes. -/
def blend_pixel (cfg : MaskCfg) (scenes : List BlendScene) : BlendPx :=
  scenes.foldl (blend_step cfg)
    { stack := cfg.nodata, prov := -1, notdone := true }

/-- maestro.py lines 417-431 and 505-519: the fill and output nodata
merge_warped uses, the mask nodata for the quality band and the cube
nodata otherwise. -/
def merge_fill_nodata (isQualityBand : Bool) (cubeNodata maskNodata : Int) : Int :=
  if isQualityBand then maskNodata else cubeNodata

/-- maestro.py lines 706-708: the nodata the blend stage works with, the
mask nodata for the quality band and the cube nodata otherwise. -/
def blend_nodata (isQualityBand : Bool) (cubeNodata maskNodata : Int) : Int :=
  if isQualityBand then maskNodata else cubeNodata

/-- maestro.py lines 909-912: the per-pixel MED epilogue; the median of
the masked stack is kept only where notdonemask was cleared, and every
pixel where notdonemask remained true is set to nodata. -/
def med_pixel (cfg : MaskCfg) (scenes : List BlendScene) (medianData : Int) : Int :=
  if (blend_pixel cfg scenes).notdone then cfg.nodata else medianData

/-- One scene entry of a blend activity: its efficacy (a float in the
code, modelled as a rational) and its date_ref dictionary key. -/
structure SceneKey where
  efficacy : Rat
  key : String
  deriving DecidableEq

/-- maestro.py lines 734-739: the ordering tuple (100 * efficacy /
resolution, date_key) with resolution the constant 10. -/
def mask_tuple (s : SceneKey) : Rat × String :=
  (100 * s.efficacy / 10, s.key)

/-- Code-point lexicographic comparison of character lists: the strict
comparison Python applies to the date_key strings. -/
def charsLt : List Char → List Char → Bool
  | [], [] => false
  | [], _ :: _ => true
  | _ :: _, [] => false
  | a :: as, b :: bs => if a < b then true else if b < a then false else charsLt as bs

/-- Python string comparison of two date keys. -/
def keyLt (a b : String) : Bool := charsLt a.data b.data

/-- The comparison under which sorted(mask_tuples, reverse=True) lists a
no later than b: the tuple of a is lexicographically greater than or
equal to the tuple of b. -/
def tuple_ge (a b : Rat × String) : Bool :=
  decide (b.1 < a.1) || (decide (a.1 = b.1) && !keyLt a.2 b.2)

/-- The induced descending comparison on scenes. -/
def scene_ge (a b : SceneKey) : Bool := tuple_ge (mask_tuple a) (mask_tuple b)

/-- Insertion step of the descending sort. -/
def insert_ge (x : SceneKey) : List SceneKey → List SceneKey
  | [] => [x]
  | y :: t => if scene_ge x y then x :: y :: t else y :: insert_ge x t

/-- maestro.py line 746: sorted(mask_tuples, reverse=True).  The
date_ref keys of a scenes dictionary are pairwise distinct, so the
tuples are totally ordered, the descending arrangement is unique and
insertion sort computes it. -/
def order_scenes (xs : List SceneKey) : List SceneKey :=
  xs.foldr insert_ge []

/-- The scene listing search_STAC stores for one (tile, period): bands,
each with datasets, each with dates. -/
structure PeriodScenes where
  scenes : List (String × List (String × List String))
  deriving DecidableEq

/-- maestro.py lines 264-273: number_of_datasets_dates counts the
(dataset, date) pairs of the first band only. -/
def number_of_datasets_dates (p : PeriodScenes) : Nat :=
  match p.scenes with
  | [] => 0
  | (_, datasets) :: _ => (datasets.map (fun d => d.2.length)).sum

/-- What one (tile, period) iteration of prepare_merge emits:
control-table resets, activity-table writes (sk, mystatus), the number
of SQS messages, and the number of direct recovery next_step calls. -/
structure PrepEmit where
  controlPuts : List (Nat × Nat)
  kinesisPuts : List (String × Status)
  sqsSends : Nat
  nextStepCalls : Nat
  deriving DecidableEq

/-- maestro.py lines 262-345, one (tile, period) of the non-skipped
branch: the control row is reset to (0, total) with total the pair count
times the band count; with no scenes a single activity with sk NOSCENES
and mystatus ERROR is written and nothing is queued; otherwise each
(band, dataset, date) merge activity is either recovered (an existing
DONE item whose output object exists, without force: next_step is called
directly) or written NOTDONE with sk the date and queued on SQS. -/
def prepare_period (p : PeriodScenes) (bands : List String)
    (recovered : String → String → String → Bool) : PrepEmit :=
  let n := number_of_datasets_dates p
  let total := n * bands.length
  if n = 0 then
    { controlPuts := [(0, total)]
      kinesisPuts := [("NOSCENES", Status.ERROR)]
      sqsSends := 0
      nextStepCalls := 0 }
  else
    let emits := p.scenes.flatMap (fun bd =>
      bd.2.flatMap (fun dd => dd.2.map (fun date => (bd.1, dd.1, date))))
    let fresh := emits.filter (fun e => !recovered e.1 e.2.1 e.2.2)
    { controlPuts := [(0, total)]
      kinesisPuts := fresh.map (fun e => (e.2.2, Status.NOTDONE))
      sqsSends := fresh.length
      nextStepCalls := (emits.filter (fun e => recovered e.1 e.2.1 e.2.2)).length }

/-- The empty emission. -/
def PrepEmit.empty : PrepEmit :=
  { controlPuts := [], kinesisPuts := [], sqsSends := 0, nextStepCalls := 0 }

/-- Concatenation of emissions of successive loop iterations. -/
def PrepEmit.combine (a b : PrepEmit) : PrepEmit :=
  { controlPuts := a.controlPuts ++ b.controlPuts
    kinesisPuts := a.kinesisPuts ++ b.kinesisPuts
    sqsSends := a.sqsSends + b.sqsSends
    nextStepCalls := a.nextStepCalls + b.nextStepCalls }

/-- maestro.py lines 222-347: prepare_merge iterates the periods of
every tile; the per-period emissions concatenate in iteration order. -/
def prepare_merge_all (ps : List PeriodScenes) (bands : List String)
    (recovered : String → String → String → Bool) : PrepEmit :=
  ps.foldr (fun p acc => (prepare_period p bands recovered).combine acc)
    PrepEmit.empty

/-- Word character of the regex class over the ASCII fragment: letters,
digits and the underscore. -/
def isWordChar (c : Char) : Bool := c.isAlphanum || c == '_'

/-- Digit character of the regex class. -/
def isDigitChar (c : Char) : Bool := c.isDigit

/-- Take exactly n characters, all satisfying p, from the front. -/
def takeClass (p : Char → Bool) : Nat → List Char → Option (List Char × List Char)
  | 0, cs => some ([], cs)
  | _ + 1, [] => none
  | n + 1, c :: cs =>
    if p c then
      match takeClass p n cs with
      | some (tk, rest) => some (c :: tk, rest)
      | none => none
    else none

/-- Consume one expected character. -/
def expectChar (c : Char) : List Char → Option (List Char)
  | [] => none
  | d :: cs => if d = c then some cs else none

/-- Consume the leading literal L; re.IGNORECASE lets it match either
case. -/
def expectCaseL : List Char → Option (List Char)
  | [] => none
  | c :: cs => if c = 'L' ∨ c = 'l' then some cs else none

/-- The named groups of the landsat scene-id pattern of
scene_parser.py lines 48-69. -/
structure LandsatMeta where
  sensor : String
  satellite : String
  processingCorrectionLevel : String
  path : String
  row : String
  acquisitionYear : String
  acquisitionMonth : String
  acquisitionDay : String
  processingYear : String
  processingMonth : String
  processingDay : String
  collectionNumber : String
  collectionCategory : String
  deriving DecidableEq

/-- One element of the anchored pattern: a capturing character-class
group of fixed width, or a literal separator. -/
inductive Tok
  | cls (p : Char → Bool) (n : Nat)
  | lit (c : Char)

/-- Run the pattern elements left to right, collecting the captured
groups and the remaining input. -/
def runToks : List Tok → List Char → Option (List (List Char) × List Char)
  | [], cs => some ([], cs)
  | Tok.cls p n :: ts, cs =>
    match takeClass p n cs with
    | some (tk, rest) =>
      match runToks ts rest with
      | some (gs, rest2) => some (tk :: gs, rest2)
      | none => none
    | none => none
  | Tok.lit c :: ts, cs =>
    match expectChar c cs with
    | some rest => runToks ts rest
    | none => none

/-- scene_parser.py lines 48-69: the group and separator sequence of the
landsat scene-id pattern after the leading literal L. -/
def landsat_pattern : List Tok :=
  [Tok.cls isWordChar 1, Tok.cls isWordChar 2, Tok.lit '_',
   Tok.cls isWordChar 4, Tok.lit '_',
   Tok.cls isDigitChar 3, Tok.cls isDigitChar 3, Tok.lit '_',
   Tok.cls isDigitChar 4, Tok.cls isDigitChar 2, Tok.cls isDigitChar 2, Tok.lit '_',
   Tok.cls isDigitChar 4, Tok.cls isDigitChar 2, Tok.cls isDigitChar 2, Tok.lit '_',
   Tok.cls isWordChar 2, Tok.lit '_', Tok.cls isWordChar 2]

/-- scene_parser.py lines 48-70: the landsat scene-id regular
expression, embedded as a parser.  The pattern is anchored at both ends
and every group has a fixed width, so the match is a fixed-shape scan;
the word classes are modelled over the ASCII fragment, and the case
flag only affects the literal L. -/
def landsat_match (s : String) : Option LandsatMeta :=
  match expectCaseL s.data with
  | none => none
  | some cs =>
    match runToks landsat_pattern cs with
    | some ([se, sa, lv, pt, rw, ay, am, ad, py, pm, pd, cn, cc], []) =>
      some
        { sensor := String.mk se
          satellite := String.mk sa
          processingCorrectionLevel := String.mk lv
          path := String.mk pt
          row := String.mk rw
          acquisitionYear := String.mk ay
          acquisitionMonth := String.mk am
          acquisitionDay := String.mk ad
          processingYear := String.mk py
          processingMonth := String.mk pm
          processingDay := String.mk pd
          collectionNumber := String.mk cn
          collectionCategory := String.mk cc }
    | _ => none

/-- scene_parser.py lines 72-78: the instruments dictionary; looking up
any other satellite code raises KeyError. -/
def instruments (sat : String) : Option String :=
  if sat = "05" then some "tm"
  else if sat = "07" then some "etm"
  else if sat = "08" then some "oli-tirs"
  else none

/-- The Python exceptions the landsat function can raise: groupdict
called on the None that re.match returns for a non-matching string
(AttributeError), and the instruments dictionary lookup (KeyError). -/
inductive PyExc
  | attributeError
  | keyError
  deriving DecidableEq

/-- The record the landsat parser returns: the scene id, the regex
groups and the instrument resolved from the satellite code. -/
structure LandsatRecord where
  scene_id : String
  meta : LandsatMeta
  instrument : String
  deriving DecidableEq

/-- scene_parser.py lines 47-80: match the scene id against the pattern
(AttributeError when re.match returns None), then resolve the
instrument from the two-digit satellite group (KeyError when the code is
not 05, 07 or 08), and return the meta record. -/
def landsat (s : String) : Except PyExc LandsatRecord :=
  match landsat_match s with
  | none => .error .attributeError
  | some m =>
    match instruments m.satellite with
    | none => .error .keyError
    | some i => .ok { scene_id := s, meta := m, instrument := i }

end CubeBuilder

namespace CubeBuilder

/-- C1 (amended): for a stage key with totalInstancesToBeDone >= 1, over
the calls whose atomic increments observe mycount = 1, 2, ..., total,
the child-stage fan-out of next_step fires exactly once, namely on the
call whose increment makes mycount equal to the total; calls observing a
strictly smaller count are silent.  (The original claim also asserted
that an increment yielding mycount strictly greater than the total does
not fire; the code tests mycount >= total, so such a call does fire —
see the counterexample.) -/
theorem C1_transition_fires_once (total : Nat) (h : 1 ≤ total) :
    ((Finset.Icc 1 total).filter (fun i => next_step_fires i total = true)).card = 1 ∧
    next_step_fires total total = true ∧
    (∀ i, i < total → next_step_fires i total = false) := by
  refine ⟨?_, ?_, ?_⟩
  · have hset : (Finset.Icc 1 total).filter (fun i => next_step_fires i total = true)
        = {total} := by
      ext i
      simp only [Finset.mem_filter, Finset.mem_Icc, Finset.mem_singleton,
        next_step_fires, decide_eq_true_eq]
      omega
    rw [hset]
    exact Finset.card_singleton total
  · simp [next_step_fires]
  · intro i hi
    simp only [next_step_fires, decide_eq_false_iff_not]
    omega

/-- Witness for C1 at total = 2: among the observations mycount = 1, 2
exactly one call fires. -/
theorem C1_transition_fires_once_witness :
    ((Finset.Icc 1 2).filter (fun i => next_step_fires i 2 = true)).card = 1 :=
  (C1_transition_fires_once 2 (by decide)).1

/-- Counterexample to C1 as stated: a completer whose atomic increment
yields mycount = 3 with totalInstancesToBeDone = 2 (strictly greater)
does fire the child-stage fan-out, because maestro.py line 167 tests
mycount >= totalInstancesToBeDone rather than equality. -/
theorem C1_overshoot_still_fires : next_step_fires 3 2 = true := by decide

/-- C2: the pipeline is strictly staged.  (i) In the
one-increment-per-completion counter model, the merge counter reaching
its total forces every merge activity of the (tile, period) to be DONE;
(ii) fill_blend emits blend work only when every fetched merge item is
DONE; (iii) next_step only ever dispatches merge -> blend,
blend -> posblend (when band expressions are present, otherwise
publish), posblend -> publish, and the publish fan-out is reachable only
from a completed posblend stage or from a completed blend stage that has
no band expressions (hence no posblend stage at all). -/
theorem C2_strict_staging :
    (∀ statuses : List Status, statuses.length ≤ countDone statuses →
        ∀ s ∈ statuses, s = Status.DONE) ∧
    (∀ responses : List (List Status), fill_blend_merges_ok responses = true →
        ∀ r ∈ responses, ∀ s ∈ r, s = Status.DONE) ∧
    next_step_child Action.merge true = some Action.blend ∧
    next_step_child Action.merge false = some Action.blend ∧
    next_step_child Action.blend true = some Action.posblend ∧
    next_step_child Action.posblend true = some Action.publish ∧
    next_step_child Action.posblend false = some Action.publish ∧
    (∀ a b, next_step_child a b = some Action.publish →
        a = Action.posblend ∨ (a = Action.blend ∧ b = false)) := by
  refine ⟨?_, ?_, rfl, rfl, rfl, rfl, rfl, ?_⟩
  · intro statuses h s hs
    have hle : countDone statuses ≤ statuses.length := List.countP_le_length _
    have heq : countDone statuses = statuses.length := le_antisymm hle h
    have hall := (List.countP_eq_length (p := fun s => s == Status.DONE)).mp heq
    have := hall s hs
    simpa using this
  · intro responses h r hr s hs
    have h2 : responses.flatten.all (fun s => s == Status.DONE) = true := by
      have := h
      unfold fill_blend_merges_ok at this
      exact (Bool.and_eq_true _ _ |>.mp this).2
    have hmem : s ∈ responses.flatten := List.mem_flatten.mpr ⟨r, hr, hs⟩
    have := (List.all_eq_true.mp h2) s hmem
    simpa using this
  · intro a b hab
    cases a <;> cases b <;> simp_all [next_step_child]

/-- Witness for C2: the first conjunct applied to the concrete all-DONE
merge set [DONE]. -/
theorem C2_strict_staging_witness : Status.DONE = Status.DONE :=
  C2_strict_staging.1 [Status.DONE] (by decide) Status.DONE (by decide)

/-- On the direct-write branch the folded pixel equals the value of the
last scene that carried data there, and the fill value where no scene
did: nodata pixels never overwrite. -/
theorem merge_path_direct_eq (nodata init : Int) (scenes : List Int) :
    merge_path_direct nodata init scenes
      = ((scenes.reverse.find? (fun v => decide (v ≠ nodata))).getD init) := by
  induction scenes generalizing init with
  | nil => rfl
  | cons v t ih =>
    have hstep : merge_path_direct nodata init (v :: t)
        = merge_path_direct nodata (if v ≠ nodata then v else init) t := rfl
    rw [hstep, ih, List.reverse_cons, List.find?_append]
    rcases h : t.reverse.find? (fun v => decide (v ≠ nodata)) with _ | x
    · simp only [ne_eq, decide_not] at h
      by_cases hv : v = nodata
      · simp [h, hv]
      · simp [h, hv]
    · simp only [ne_eq, decide_not] at h
      simp [h]

/-- Once the running raster_mask reaches 0 the masked-accumulation fold
no longer changes the state. -/
theorem merge_path_masked_after_valid (nodata m : Int) (scenes : List Int) :
    scenes.foldl
        (fun acc v => (acc.1 + v * acc.2, if v ≠ nodata then 0 else acc.2))
        (m, 0)
      = (m, 0) := by
  induction scenes generalizing m with
  | nil => rfl
  | cons v t ih => simpa using ih m

/-- With nodata 0 the masked-accumulation fold adds the first nonzero
scene value to the accumulator and nothing else. -/
theorem merge_path_masked_first (m : Int) (scenes : List Int) :
    scenes.foldl
        (fun acc v => (acc.1 + v * acc.2, if v ≠ (0 : Int) then 0 else acc.2))
        (m, 1)
      = (m + ((scenes.find? (fun v => decide (v ≠ 0))).getD 0),
         if scenes.any (fun v => decide (v ≠ 0)) then 0 else 1) := by
  induction scenes generalizing m with
  | nil => simp
  | cons v t ih =>
    by_cases hv : v = (0 : Int)
    · subst hv
      simpa using ih m
    · rw [List.foldl_cons, if_pos hv, merge_path_masked_after_valid,
        List.find?_cons_of_pos _ (by simp [hv]), Option.getD_some]
      simp [hv]

/-- C4 (amended): on the direct-write branch (bands other than the
quality band, and quality bands of Sentinel-2 or Landsat whose mask
nodata is nonzero) the pixel holds the last scene value that differed
from nodata, and nodata pixels never overwrite; on the
masked-accumulation branch, when the mask nodata is 0 (as the spec
assumes for the 0-as-nodata masks such as CBERS CMASK), the pixel
receives the first-seen valid value and untouched pixels stay 0.  The
path selection follows maestro.py lines 413-414 and 485.  (The original
claim asserted the first-seen/stay-0 outcome for every quality band on
the masked branch; with a nonzero mask nodata the accumulation adds the
fill value instead — see the counterexample.) -/
theorem C4_merge_composition :
    (∀ (nodata init : Int) (scenes : List Int),
        merge_path_direct nodata init scenes
          = ((scenes.reverse.find? (fun v => decide (v ≠ nodata))).getD init)) ∧
    (∀ scenes : List Int,
        (merge_path_masked 0 0 scenes).1
          = ((scenes.find? (fun v => decide (v ≠ 0))).getD 0)) ∧
    merge_uses_direct_path "SENTINEL-2" true 255 = true ∧
    merge_uses_direct_path "LANDSAT-8" true 255 = true ∧
    merge_uses_direct_path "CBERS-4" true 0 = false ∧
    merge_uses_direct_path "CBERS-4" false 0 = true := by
  refine ⟨merge_path_direct_eq, ?_, ?_, ?_, ?_, ?_⟩
  · intro scenes
    unfold merge_path_masked
    rw [merge_path_masked_first]
    simp
  · decide
  · decide
  · decide
  · decide

/-- Counterexample to C4 as stated: a CBERS-style quality band with mask
nodata 5 takes the masked-accumulation branch, and a pixel never touched
by valid data (its only scene value equals nodata) ends at 10, not 0:
the fold adds the nodata fill into the accumulator. -/
theorem C4_masked_branch_nonzero_mask_nodata :
    merge_uses_direct_path "CBERS-4" true 5 = false ∧
    (merge_path_masked 5 5 [5]).1 = 10 ∧ ((10 : Int) ≠ 0) := by
  refine ⟨by decide, by decide, by decide⟩

/-- C3: at the failing input the code defines an IDTfile output key.
fill_blend's loop guard compares the geoalchemy2 import func with the
string IDT instead of consulting the loop variable function, so the IDT
entry is never skipped, diverging from the claim (and from the
spec-modelled list); the quality-band STK-only rule and the path format
do hold. -/
theorem C3_fill_blend_defines_IDTfile :
    fill_blend_output_funcs ["IDT", "MED", "STK"] false = ["IDT", "MED", "STK"] ∧
    "IDT" ∈ fill_blend_output_funcs ["IDT", "MED", "STK"] false ∧
    fill_blend_output_funcs_spec ["IDT", "MED", "STK"] false = ["MED", "STK"] ∧
    fill_blend_output_funcs ["IDT", "MED", "STK"] true = ["STK"] ∧
    fill_blend_file "CB4_64_16D_STK" "1" "022024" "2020-01-01" "2020-01-16" "B04" "MED"
      = "CB4_64_16D_MED/1/022024/2020-01-01_2020-01-16/CB4_64_16D_MED_1_022024_2020-01-01_2020-01-16_B04.tif" := by
  refine ⟨by decide, by decide, by decide, by decide, by decide⟩

/-- C6: the code evaluated on both sides of the shape branch.  Without a
shape the non-cached path ends with the activity DONE and the new
resolutions dist / round(dist / res); with a shape set the update reads
the never-assigned new_res_x and new_res_y, raises, and the handler
records the activity as ERROR with step merge instead of DONE. -/
theorem C6_merge_update_shape_branch :
    merge_warped_finalize (some (100, 100)) 10560 10560 10 10
      = { mystatus := "ERROR", errorStep := some "merge",
          new_resolution_x := none, new_resolution_y := none } ∧
    merge_warped_finalize none 10560 10560 10 10
      = { mystatus := "DONE", errorStep := none,
          new_resolution_x := some 10, new_resolution_y := some 10 } := by
  constructor
  · rfl
  · have h1 : pyRound ((10560 : Rat) / 10) = 1056 := by norm_num [pyRound]
    simp only [merge_warped_finalize, merge_new_res, h1]
    norm_num

/-- A clear pixel always carries data: when 0 is not a clear-data value,
a scene whose band value equals nodata is reclassified to 0 and is not
clear. -/
theorem clearB_ne_nodata (cfg : MaskCfg) (h0 : (0 : Int) ∉ cfg.clear_data)
    (rawm v : Int) (hc : clearB cfg rawm v = true) : v ≠ cfg.nodata := by
  intro hv
  have hz : reclass cfg rawm v = 0 := by
    unfold reclass
    simp [hv, h0]
  rw [clearB, hz] at hc
  simp at hc

/-- One blend step either writes the scene value and its day of year to
the pixel (and then the scene is clear or carries data), or leaves the
stack and provenance untouched. -/
theorem blend_step_stack_prov (cfg : MaskCfg) (st : BlendPx) (s : BlendScene) :
    ((blend_step cfg st s).stack = s.v ∧ (blend_step cfg st s).prov = s.doy ∧
      (clearB cfg s.m s.v = true ∨ s.v ≠ cfg.nodata)) ∨
    ((blend_step cfg st s).stack = st.stack ∧ (blend_step cfg st s).prov = st.prov) := by
  unfold blend_step
  by_cases hc : (st.notdone && clearB cfg s.m s.v) = true
  · left
    have hcl : clearB cfg s.m s.v = true := ((Bool.and_eq_true _ _).mp hc).2
    have hnd : st.notdone = true := ((Bool.and_eq_true _ _).mp hc).1
    by_cases hg : st.stack = cfg.nodata ∧ s.v ≠ cfg.nodata
    · simp [hg, hc, hcl, hnd]
    · simp [hg, hc, hcl, hnd]
  · by_cases hg : st.stack = cfg.nodata ∧ s.v ≠ cfg.nodata
    · left
      simp only [hg, if_pos, hc]
      simp [hg.2]
    · right
      simp [hg, hc]

/-- The per-pixel blend invariant: after folding any list of scenes, the
pixel either still holds (nodata, -1) or holds the value and the day of
year of one of the scenes, a value different from nodata. -/
theorem blend_pixel_inv (cfg : MaskCfg) (h0 : (0 : Int) ∉ cfg.clear_data)
    (univ : List BlendScene) :
    ∀ (scenes : List BlendScene) (st : BlendPx),
      (∀ s ∈ scenes, s ∈ univ) →
      ((st.stack = cfg.nodata ∧ st.prov = -1) ∨
        (∃ s ∈ univ, st.stack = s.v ∧ st.prov = s.doy ∧ s.v ≠ cfg.nodata)) →
      (((scenes.foldl (blend_step cfg) st).stack = cfg.nodata ∧
          (scenes.foldl (blend_step cfg) st).prov = -1) ∨
        (∃ s ∈ univ, (scenes.foldl (blend_step cfg) st).stack = s.v ∧
          (scenes.foldl (blend_step cfg) st).prov = s.doy ∧ s.v ≠ cfg.nodata)) := by
  intro scenes
  induction scenes with
  | nil => intro st _ h; simpa using h
  | cons s t ih =>
    intro st hsub hst
    rw [List.foldl_cons]
    apply ih
    · intro x hx; exact hsub x (List.mem_cons_of_mem _ hx)
    · have hs : s ∈ univ := hsub s (List.mem_cons_self _ _)
      rcases blend_step_stack_prov cfg st s with ⟨h1, h2, h3⟩ | ⟨h1, h2⟩
      · right
        refine ⟨s, hs, h1, h2, ?_⟩
        rcases h3 with h3 | h3
        · exact clearB_ne_nodata cfg h0 s.m s.v h3
        · exact h3
      · rw [h1, h2]
        exact hst

/-- C5 (amended): at every pixel where the STK composite holds any
observation (a value different from the applicable nodata), PROVENANCE
equals the day of year of the scene whose value was chosen; at every
pixel where STK still holds nodata, PROVENANCE equals -1.  The
hypothesis excludes 0 from the clear-data values, as every mask
descriptor of the code does.  (The original claim restricted the first
part to clear observations and asserted -1 everywhere else; the STK
gap-fill also writes non-clear observations and records their day of
year — see the counterexample.) -/
theorem C5_provenance_tracks_stack (cfg : MaskCfg) (scenes : List BlendScene)
    (h0 : (0 : Int) ∉ cfg.clear_data) :
    ((blend_pixel cfg scenes).stack = cfg.nodata →
      (blend_pixel cfg scenes).prov = -1) ∧
    ((blend_pixel cfg scenes).stack ≠ cfg.nodata →
      ∃ s ∈ scenes, (blend_pixel cfg scenes).stack = s.v ∧
        (blend_pixel cfg scenes).prov = s.doy) := by
  have hinv := blend_pixel_inv cfg h0 scenes scenes
    { stack := cfg.nodata, prov := -1, notdone := true }
    (fun s hs => hs) (Or.inl ⟨rfl, rfl⟩)
  rcases hinv with ⟨h1, h2⟩ | ⟨s, hs, h1, h2, h3⟩
  · exact ⟨fun _ => h2, fun hne => absurd h1 hne⟩
  · constructor
    · intro hstack
      unfold blend_pixel at hstack
      rw [h1] at hstack
      exact absurd hstack h3
    · intro _
      exact ⟨s, hs, h1, h2⟩

/-- Witness for C5 at a single all-nodata scene: the stack stays at
nodata and the provenance stays -1. -/
theorem C5_provenance_tracks_stack_witness :
    (blend_pixel ⟨-9999, [1], [2], []⟩ [⟨-9999, 1, 32⟩]).prov = -1 :=
  (C5_provenance_tracks_stack ⟨-9999, [1], [2], []⟩ [⟨-9999, 1, 32⟩]
    (by decide)).1 (by decide)

/-- Counterexample to C5 as stated: a single scene with data (value 7)
that is not clear (mask value 2 is a not-clear value) is gap-filled into
STK; the pixel holds no clear observation (notdonemask is still true),
yet PROVENANCE holds the day of year 32 rather than -1. -/
theorem C5_gap_fill_sets_provenance :
    (blend_pixel ⟨-9999, [1], [2], []⟩ [⟨7, 2, 32⟩]).notdone = true ∧
    (blend_pixel ⟨-9999, [1], [2], []⟩ [⟨7, 2, 32⟩]).prov = 32 ∧
    ((32 : Int) ≠ -1) := by decide

/-- C9 (amended): the quality band's rasters are filled and written with
the mask nodata and every other band's with the cube nodata, in both
merge_warped and blend; and at the end of blend the MED raster holds the
applicable nodata at every pixel where notdonemask remained true.  (The
original claim asserted the nodata outcome for every blend output; the
STK raster gap-fills notdone pixels with non-clear observations — see
the counterexample.) -/
theorem C9_nodata_fill :
    (∀ c m : Int, merge_fill_nodata true c m = m ∧ merge_fill_nodata false c m = c) ∧
    (∀ c m : Int, blend_nodata true c m = m ∧ blend_nodata false c m = c) ∧
    (∀ (cfg : MaskCfg) (scenes : List BlendScene) (medianData : Int),
        (blend_pixel cfg scenes).notdone = true →
        med_pixel cfg scenes medianData = cfg.nodata) := by
  refine ⟨fun c m => ⟨rfl, rfl⟩, fun c m => ⟨rfl, rfl⟩, ?_⟩
  intro cfg scenes medianData h
  simp [med_pixel, h]

/-- Witness for C9: the MED pixel of a never-clear stack is nodata. -/
theorem C9_nodata_fill_witness :
    med_pixel ⟨-9999, [1], [2], []⟩ [⟨7, 2, 32⟩] 55 = (-9999 : Int) :=
  C9_nodata_fill.2.2 ⟨-9999, [1], [2], []⟩ [⟨7, 2, 32⟩] 55 (by decide)

/-- Counterexample to C9 as stated: at a pixel where notdonemask
remained true, the STK blend raster holds the gap-filled value 7 and not
the applicable nodata -9999. -/
theorem C9_stk_notdone_pixel_not_nodata :
    (blend_pixel ⟨-9999, [1], [2], []⟩ [⟨7, 2, 32⟩]).notdone = true ∧
    (blend_pixel ⟨-9999, [1], [2], []⟩ [⟨7, 2, 32⟩]).stack = 7 ∧
    ((7 : Int) ≠ -9999) := by decide

/-- The code-point comparison is asymmetric. -/
theorem charsLt_asymm : ∀ as bs : List Char,
    charsLt as bs = true → charsLt bs as = false
  | [], [] => by simp [charsLt]
  | [], _ :: _ => by simp [charsLt]
  | _ :: _, [] => by simp [charsLt]
  | a :: as, b :: bs => by
    intro h
    by_cases hab : a < b
    · simp [charsLt, hab, lt_asymm hab]
    · by_cases hba : b < a
      · simp [charsLt, hab, hba] at h
      · have hrec := charsLt_asymm as bs (by simpa [charsLt, hab, hba] using h)
        simp [charsLt, hab, hba, hrec]

/-- Two lists neither of which compares below the other are equal. -/
theorem charsLt_conn : ∀ as bs : List Char,
    charsLt as bs = false → charsLt bs as = false → as = bs
  | [], [] => by intro _ _; rfl
  | [], _ :: _ => by intro h _; simp [charsLt] at h
  | _ :: _, [] => by intro _ h; simp [charsLt] at h
  | a :: as, b :: bs => by
    intro h1 h2
    by_cases hab : a < b
    · simp [charsLt, hab] at h1
    · by_cases hba : b < a
      · simp [charsLt, hba] at h2
      · have hEq : a = b := le_antisymm (le_of_not_lt hba) (le_of_not_lt hab)
        subst hEq
        have hrec := charsLt_conn as bs
          (by simpa [charsLt, hab] using h1)
          (by simpa [charsLt, hab] using h2)
        rw [hrec]

/-- The code-point comparison is transitive. -/
theorem charsLt_trans : ∀ as bs cs : List Char,
    charsLt as bs = true → charsLt bs cs = true → charsLt as cs = true
  | [], [], _ => by intro h _; simp [charsLt] at h
  | [], _ :: _, [] => by intro _ h; simp [charsLt] at h
  | [], _ :: _, _ :: _ => by intro _ _; simp [charsLt]
  | _ :: _, [], _ => by intro h _; simp [charsLt] at h
  | _ :: _, _ :: _, [] => by intro _ h; simp [charsLt] at h
  | a :: as, b :: bs, c :: cs => by
    intro h1 h2
    rcases lt_trichotomy a b with hab | hab | hab
    · rcases lt_trichotomy b c with hbc | hbc | hbc
      · simp [charsLt, lt_trans hab hbc]
      · subst hbc; simp [charsLt, hab]
      · simp [charsLt, lt_asymm hbc, hbc] at h2
    · subst hab
      rcases lt_trichotomy a c with hac | hac | hac
      · simp [charsLt, hac]
      · subst hac
        have h1' : charsLt as bs = true := by
          simpa [charsLt, lt_irrefl] using h1
        have h2' : charsLt bs cs = true := by
          simpa [charsLt, lt_irrefl] using h2
        simpa [charsLt, lt_irrefl] using charsLt_trans as bs cs h1' h2'
      · simp [charsLt, lt_asymm hac, hac] at h2
    · simp [charsLt, lt_asymm hab, hab] at h1

/-- Not-below is transitive for the code-point comparison. -/
theorem charsLt_negtrans (as bs cs : List Char) (h1 : charsLt as bs = false)
    (h2 : charsLt bs cs = false) : charsLt as cs = false := by
  by_contra hac
  rw [Bool.not_eq_false] at hac
  by_cases hcb : charsLt cs bs = true
  · have := charsLt_trans as cs bs hac hcb
    rw [this] at h1
    simp at h1
  · have hbceq : bs = cs := charsLt_conn bs cs h2 (by simpa using hcb)
    subst hbceq
    rw [hac] at h1
    simp at h1

/-- The descending tuple comparison is total. -/
theorem scene_ge_total (a b : SceneKey) : scene_ge a b = true ∨ scene_ge b a = true := by
  unfold scene_ge tuple_ge
  rcases lt_trichotomy (mask_tuple a).1 (mask_tuple b).1 with h | h | h
  · right; simp [h]
  · by_cases hk : keyLt (mask_tuple a).2 (mask_tuple b).2 = true
    · right
      have hk2 := charsLt_asymm _ _ hk
      simp [h, keyLt, hk2]
    · left
      simp [h, hk]
  · left; simp [h]

/-- The descending tuple comparison is transitive. -/
theorem scene_ge_trans (a b c : SceneKey) (h1 : scene_ge a b = true)
    (h2 : scene_ge b c = true) : scene_ge a c = true := by
  unfold scene_ge tuple_ge at h1 h2 ⊢
  simp only [Bool.or_eq_true, Bool.and_eq_true, decide_eq_true_eq,
    Bool.not_eq_true'] at h1 h2 ⊢
  rcases h1 with h1 | ⟨h1e, h1k⟩
  · rcases h2 with h2 | ⟨h2e, h2k⟩
    · exact Or.inl (lt_trans h2 h1)
    · exact Or.inl (h2e ▸ h1)
  · rcases h2 with h2 | ⟨h2e, h2k⟩
    · exact Or.inl (lt_of_lt_of_le h2 (le_of_eq h1e.symm))
    · refine Or.inr ⟨h1e.trans h2e, ?_⟩
      exact charsLt_negtrans _ _ _ h1k h2k

/-- Inserting an element permutes consing it. -/
theorem insert_ge_perm (x : SceneKey) : ∀ l : List SceneKey,
    (insert_ge x l).Perm (x :: l)
  | [] => List.Perm.refl _
  | y :: t => by
    unfold insert_ge
    by_cases h : scene_ge x y = true
    · simp only [h, if_true]
      exact List.Perm.refl _
    · simp only [h, if_false]
      exact (List.Perm.cons y (insert_ge_perm x t)).trans (List.Perm.swap x y t)

/-- Membership after insertion. -/
theorem mem_insert_ge {z x : SceneKey} {l : List SceneKey}
    (h : z ∈ insert_ge x l) : z = x ∨ z ∈ l := by
  have := (insert_ge_perm x l).mem_iff.mp h
  simpa using this

/-- Insertion preserves the descending pairwise arrangement. -/
theorem insert_ge_pairwise (x : SceneKey) : ∀ l : List SceneKey,
    l.Pairwise (fun a b => scene_ge a b = true) →
    (insert_ge x l).Pairwise (fun a b => scene_ge a b = true)
  | [], _ => by simp [insert_ge]
  | y :: t, hl => by
    rcases List.pairwise_cons.mp hl with ⟨hy, ht⟩
    unfold insert_ge
    by_cases hxy : scene_ge x y = true
    · simp only [hxy, if_true]
      refine List.pairwise_cons.mpr ⟨?_, hl⟩
      intro z hz
      rcases List.mem_cons.mp hz with rfl | hz2
      · exact hxy
      · exact scene_ge_trans x y z hxy (hy z hz2)
    · simp only [hxy, if_false]
      refine List.pairwise_cons.mpr ⟨?_, insert_ge_pairwise x t ht⟩
      intro z hz
      rcases mem_insert_ge hz with hzx | hz2
      · rw [hzx]
        rcases scene_ge_total x y with h | h
        · exact absurd h hxy
        · exact h
      · exact hy z hz2

/-- The computed scene order is a permutation of the input. -/
theorem order_scenes_perm (xs : List SceneKey) : (order_scenes xs).Perm xs := by
  unfold order_scenes
  induction xs with
  | nil => exact List.Perm.refl _
  | cons x t ih => exact (insert_ge_perm x _).trans (List.Perm.cons x ih)

/-- The computed scene order is descending. -/
theorem order_scenes_pairwise (xs : List SceneKey) :
    (order_scenes xs).Pairwise (fun a b => scene_ge a b = true) := by
  unfold order_scenes
  induction xs with
  | nil => simp
  | cons x t ih => exact insert_ge_pairwise x _ ih

/-- C7 (amended): the blend stage processes the scenes of a
(tile, period) in a deterministic order, a permutation of the scene set
arranged in descending order of the tuple (100 * efficacy / resolution,
date_key) with resolution the constant 10 — ties in the score are broken
by descending (reverse lexicographic) date_key order, because
sorted(..., reverse=True) reverses the whole tuple comparison.  (The
original claim said ties are broken by date_key lexicographic order,
which reads as ascending — see the counterexample.) -/
theorem C7_blend_scene_order (xs : List SceneKey) :
    (order_scenes xs).Perm xs ∧
    (order_scenes xs).Pairwise (fun a b =>
      (mask_tuple b).1 < (mask_tuple a).1 ∨
        ((mask_tuple a).1 = (mask_tuple b).1 ∧ keyLt a.key b.key = false)) ∧
    (∀ s : SceneKey, (mask_tuple s).1 = 10 * s.efficacy) := by
  refine ⟨order_scenes_perm xs, ?_, ?_⟩
  · refine (order_scenes_pairwise xs).imp ?_
    intro a b h
    unfold scene_ge tuple_ge at h
    simp only [Bool.or_eq_true, Bool.and_eq_true, decide_eq_true_eq,
      Bool.not_eq_true'] at h
    simpa [mask_tuple] using h
  · intro s
    unfold mask_tuple
    dsimp only
    ring

/-- Counterexample to C7 as stated: two scenes with equal efficacy and
date keys 2020-01-01 and 2020-01-05 are processed with 2020-01-05 first,
the reverse of ascending lexicographic order. -/
theorem C7_tie_break_descending :
    (order_scenes [⟨1, "2020-01-01"⟩, ⟨1, "2020-01-05"⟩]).map SceneKey.key
      = ["2020-01-05", "2020-01-01"] ∧
    (["2020-01-05", "2020-01-01"] : List String) ≠ ["2020-01-01", "2020-01-05"] := by
  constructor
  · have h1 : ¬ ((100 * (1 : Rat) / 10) < 100 * 1 / 10) := by norm_num
    have h2 : keyLt "2020-01-01" "2020-01-05" = true := by decide
    simp [order_scenes, insert_ge, scene_ge, tuple_ge, mask_tuple, h1, h2]
  · decide

/-- Splitting the prepare_merge fold: folding over a list with any seed
equals combining the list's emissions with the seed. -/
theorem prepare_fold_split (bands : List String)
    (recovered : String → String → String → Bool) :
    ∀ (ps : List PeriodScenes) (X : PrepEmit),
      ps.foldr (fun p acc => (prepare_period p bands recovered).combine acc) X
        = (prepare_merge_all ps bands recovered).combine X
  | [], X => by
    simp [prepare_merge_all, PrepEmit.combine, PrepEmit.empty]
  | p :: t, X => by
    rw [List.foldr_cons, prepare_fold_split bands recovered t X]
    show (prepare_period p bands recovered).combine
        ((prepare_merge_all t bands recovered).combine X)
      = ((prepare_period p bands recovered).combine
          (prepare_merge_all t bands recovered)).combine X
    simp [prepare_merge_all, PrepEmit.combine, Nat.add_assoc]

/-- C8: a (tile, period) whose STAC search yields zero dataset/date
combinations produces exactly one activity write, with sk NOSCENES and
mystatus ERROR; no merge activity is queued and no recovery next_step is
called for it, so its pipeline does not advance; and inside the full
prepare_merge iteration its emissions sit between the unchanged
emissions of the periods before and after it. -/
theorem C8_noscenes_isolated (p : PeriodScenes) (bands : List String)
    (recovered : String → String → String → Bool)
    (h : number_of_datasets_dates p = 0) :
    prepare_period p bands recovered
      = { controlPuts := [(0, 0)]
          kinesisPuts := [("NOSCENES", Status.ERROR)]
          sqsSends := 0
          nextStepCalls := 0 } ∧
    (∀ ps qs : List PeriodScenes,
      prepare_merge_all (ps ++ p :: qs) bands recovered
        = (prepare_merge_all ps bands recovered).combine
            ((prepare_period p bands recovered).combine
              (prepare_merge_all qs bands recovered))) := by
  constructor
  · unfold prepare_period
    rw [h]
    simp
  · intro ps qs
    show List.foldr _ _ _ = _
    rw [List.foldr_append, List.foldr_cons]
    exact prepare_fold_split bands recovered ps _

/-- Witness for C8 at an empty STAC result for one period. -/
theorem C8_noscenes_isolated_witness :
    prepare_period ⟨[]⟩ ["B04"] (fun _ _ _ => false)
      = { controlPuts := [(0, 0)]
          kinesisPuts := [("NOSCENES", Status.ERROR)]
          sqsSends := 0
          nextStepCalls := 0 } :=
  (C8_noscenes_isolated ⟨[]⟩ ["B04"] (fun _ _ _ => false) (by decide)).1

/-- C10: the landsat scene-id function returns a record exactly when the
string matches the pattern and the two-digit satellite group is 05, 07
or 08 (instruments tm, etm and oli-tirs); a match with any other
satellite code raises KeyError from the instruments lookup, and a
non-matching string raises an exception (AttributeError) because
re.match returns None and groupdict is called on it. -/
theorem C10_landsat_parse (s : String) :
    (landsat_match s = none → landsat s = Except.error PyExc.attributeError) ∧
    (∀ m : LandsatMeta, landsat_match s = some m →
      (m.satellite = "05" →
        landsat s = Except.ok { scene_id := s, meta := m, instrument := "tm" }) ∧
      (m.satellite = "07" →
        landsat s = Except.ok { scene_id := s, meta := m, instrument := "etm" }) ∧
      (m.satellite = "08" →
        landsat s = Except.ok { scene_id := s, meta := m, instrument := "oli-tirs" }) ∧
      (m.satellite ≠ "05" → m.satellite ≠ "07" → m.satellite ≠ "08" →
        landsat s = Except.error PyExc.keyError)) := by
  constructor
  · intro h
    unfold landsat
    rw [h]
  · intro m hm
    unfold landsat
    rw [hm]
    refine ⟨?_, ?_, ?_, ?_⟩
    · intro h1; simp [instruments, h1]
    · intro h1; simp [instruments, h1]
    · intro h1; simp [instruments, h1]
    · intro h1 h2 h3; simp [instruments, h1, h2, h3]

/-- Witness for C10 at a Landsat-8 collection scene id: the pattern
matches, the satellite group is 08 and the parser returns the record
with instrument oli-tirs. -/
theorem C10_landsat_parse_witness :
    landsat "LC08_L1TP_220069_20190101_20190115_01_T1"
      = Except.ok
          { scene_id := "LC08_L1TP_220069_20190101_20190115_01_T1"
            meta :=
              { sensor := "C", satellite := "08",
                processingCorrectionLevel := "L1TP",
                path := "220", row := "069",
                acquisitionYear := "2019", acquisitionMonth := "01",
                acquisitionDay := "01", processingYear := "2019",
                processingMonth := "01", processingDay := "15",
                collectionNumber := "01", collectionCategory := "T1" }
            instrument := "oli-tirs" } :=
  ((C10_landsat_parse "LC08_L1TP_220069_20190101_20190115_01_T1").2
    { sensor := "C", satellite := "08",
      processingCorrectionLevel := "L1TP",
      path := "220", row := "069",
      acquisitionYear := "2019", acquisitionMonth := "01",
      acquisitionDay := "01", processingYear := "2019",
      processingMonth := "01", processingDay := "15",
      collectionNumber := "01", collectionCategory := "T1" }
    (by decide)).2.2.1 (by decide)

end CubeBuilder
